import Mathlib

set_option linter.unusedVariables false

/-!
Verification of the session lifecycle manager and transport gateway of
barnuri/web-terminal.

The embedding follows the source:

* `TerminalService` (server/src/services/terminal.service.ts): the session
  registry.  The `Map<string, TerminalSession>` is embedded as an association
  list with unique keys; `node-pty` process handles are numbered by a counter,
  and every side effect on a process (spawn, write, resize, kill) is recorded
  in an append-only action log, so that "bytes were forwarded to the process"
  is observable even after the registry entry is gone.
* `TerminalGateway` (the gateway module wired in terminal.module.ts, the one
  importing '../services/terminal.service'): socket.io handlers become
  functions from a gateway state and message payload to a new state plus the
  list of events emitted to clients.  A pty `onData` registration is embedded
  as appending the subscribing connection id to the session's listener list,
  matching node-pty semantics where `onData` adds a listener and never
  removes earlier ones.
* Timestamps (`Date`) are milliseconds as `Nat`; each handler that reads the
  clock takes `now` explicitly.  `configService.get(...) || default` is
  embedded by `jsOrNat`/`jsOrStr`, faithful to JavaScript truthiness.
-/

/-- Lookup in an association list, first match wins (Map.get). -/
def alGet {α : Type} (k : String) : List (String × α) → Option α
  | [] => none
  | (k₂, v) :: rest => if k₂ = k then some v else alGet k rest

/-- Update-or-append in an association list (Map.set). -/
def alSet {α : Type} (k : String) (v : α) : List (String × α) → List (String × α)
  | [] => [(k, v)]
  | (k₂, v₂) :: rest => if k₂ = k then (k, v) :: rest else (k₂, v₂) :: alSet k v rest

/-- Remove the first entry with the given key (Map.delete). -/
def alErase {α : Type} (k : String) : List (String × α) → List (String × α)
  | [] => []
  | (k₂, v₂) :: rest => if k₂ = k then rest else (k₂, v₂) :: alErase k rest

/-- Add an element to a set embedded as a duplicate-free list (Set.add). -/
def setAdd (x : String) (l : List String) : List String :=
  if x ∈ l then l else l ++ [x]

/-- JavaScript `a || b` on numbers: `undefined` and `0` are falsy. -/
def jsOrNat (v : Option Nat) (d : Nat) : Nat :=
  match v with
  | none => d
  | some n => if n = 0 then d else n

/-- JavaScript `a || b` on strings: `undefined` and the empty string are falsy. -/
def jsOrStr (v : Option String) (d : String) : String :=
  match v with
  | none => d
  | some s => if s = "" then d else s

/-- Configuration values consumed from the ConfigService (configuration.ts). -/
structure Config where
  shell : String
  allowedPath : String
  sessionTimeout : Option Nat
  maxSessions : Nat
deriving Repr, DecidableEq

/-- Timeout as read by the service: `get('terminal.sessionTimeout') || 1800000`. -/
def timeoutOf (cfg : Config) : Nat := jsOrNat cfg.sessionTimeout 1800000

/-- The filesystem facts `validatePath` consults: `fs.existsSync`,
`path.resolve`, and `os.homedir()`. -/
structure Fs where
  existsSync : String → Bool
  resolve : String → String
  homedir : String

/-- Replace the first occurrence of the character given, as JavaScript
`s.replace(pat, rep)` with a one-character string pattern does. -/
def replaceFirstChar (pat : Char) (rep : List Char) : List Char → List Char
  | [] => []
  | c :: rest => if c = pat then rep ++ rest else c :: replaceFirstChar pat rep rest

/-- The tilde expansion in validatePath: `allowedPath.replace('~', os.homedir())`. -/
def expandTilde (s home : String) : String :=
  String.mk (replaceFirstChar '~' home.data s.data)

/-- TerminalService.validatePath: resolve the tilde-expanded path; if it exists
on the filesystem return it, otherwise fall back to the home directory. -/
def validatePath (fs : Fs) (p : String) : String :=
  let resolvedPath := fs.resolve (expandTilde p fs.homedir)
  if fs.existsSync resolvedPath then resolvedPath else fs.homedir

/-- Observable actions on pty process handles. -/
inductive PtyAction
  | spawn (pid : Nat) (cwd : String)
  | write (pid : Nat) (data : String)
  | resize (pid : Nat) (cols rows : Nat)
  | kill (pid : Nat)
deriving Repr, DecidableEq

/-- One registry entry (interface TerminalSession in terminal.service.ts).
`listeners` is the list of connections whose `onData` callbacks are attached
to this session's pty, in registration order. -/
structure TerminalSession where
  ptyId : Nat
  clientId : String
  listeners : List String
  createdAt : Nat
  lastAccessedAt : Nat
  expiresAt : Nat
deriving Repr, DecidableEq

/-- State of TerminalService: the session map, the pty-handle counter, and the
append-only log of process actions. -/
structure ServiceState where
  sessions : List (String × TerminalSession)
  nextPty : Nat
  log : List PtyAction
deriving Repr, DecidableEq

/-- TerminalService.createSession: validate the cwd (custom cwd if truthy,
otherwise the configured allowedPath), spawn a pty, register the creating
connection's output callback, and insert the entry with fresh timestamps. -/
def createSession (cfg : Config) (fs : Fs) (now : Nat) (sessionId clientId : String)
    (listener : String) (customCwd : Option String) (st : ServiceState) : ServiceState :=
  let pathToValidate := jsOrStr customCwd cfg.allowedPath
  let cwd := validatePath fs pathToValidate
  let pid := st.nextPty
  let timeout := timeoutOf cfg
  { sessions := alSet sessionId
      { ptyId := pid
        clientId := clientId
        listeners := [listener]
        createdAt := now
        lastAccessedAt := now
        expiresAt := now + timeout } st.sessions
    nextPty := pid + 1
    log := st.log ++ [PtyAction.spawn pid cwd] }

/-- TerminalService.writeToSession: look the session up; if absent, log a
warning and return (no state change); otherwise write the data to its pty. -/
def writeToSession (sessionId data : String) (st : ServiceState) : ServiceState :=
  match alGet sessionId st.sessions with
  | none => st
  | some s => { st with log := st.log ++ [PtyAction.write s.ptyId data] }

/-- TerminalService.resizeSession: absent id is a no-op; otherwise resize. -/
def resizeSession (sessionId : String) (cols rows : Nat) (st : ServiceState) : ServiceState :=
  match alGet sessionId st.sessions with
  | none => st
  | some s => { st with log := st.log ++ [PtyAction.resize s.ptyId cols rows] }

/-- TerminalService.destroySession: absent id is a no-op; otherwise kill the
pty and delete the entry. -/
def destroySession (sessionId : String) (st : ServiceState) : ServiceState :=
  match alGet sessionId st.sessions with
  | none => st
  | some s =>
    { st with
      sessions := alErase sessionId st.sessions
      log := st.log ++ [PtyAction.kill s.ptyId] }

/-- TerminalService.getSession. -/
def getSession (sessionId : String) (st : ServiceState) : Option TerminalSession :=
  alGet sessionId st.sessions

/-- TerminalService.updateSessionAccess: absent id is a no-op; otherwise set
`lastAccessedAt` to now and `expiresAt` to now plus the configured timeout. -/
def updateSessionAccess (cfg : Config) (now : Nat) (sessionId : String)
    (st : ServiceState) : ServiceState :=
  match alGet sessionId st.sessions with
  | none => st
  | some s =>
    { st with
      sessions := alSet sessionId
        { s with lastAccessedAt := now, expiresAt := now + timeoutOf cfg } st.sessions }

/-- Body of the cleanup loop: walk the snapshot of entries, destroying each
one whose deadline has passed. -/
def sweepGo (now : Nat) : List (String × TerminalSession) → ServiceState → ServiceState
  | [], st => st
  | (sid, s) :: rest, st =>
    sweepGo now rest (if s.expiresAt < now then destroySession sid st else st)

/-- TerminalService.cleanupExpiredSessions: for every entry whose
`expiresAt < now`, call destroySession. -/
def cleanupExpiredSessions (now : Nat) (st : ServiceState) : ServiceState :=
  sweepGo now st.sessions st

/-- Events the gateway emits to clients over socket.io. -/
inductive Emit
  | errorMsg (client msg : String)
  | sessionCreated (client sid : String)
  | output (client sid data : String)
  | sessionDestroyed (client sid : String)
  | reconnectFailed (client sid msg : String)
  | reconnectSuccess (client sid : String)
deriving Repr, DecidableEq

/-- State of TerminalGateway: the service state plus the
`clientSessions : Map<clientId, Set<sessionId>>` authorization map. -/
structure GatewayState where
  svc : ServiceState
  clientSessions : List (String × List String)
deriving Repr, DecidableEq

/-- TerminalGateway.handleConnection (auth disabled path): register the
connection with an empty authorized-session set. -/
def handleConnection (clientId : String) (st : GatewayState) : GatewayState :=
  { st with clientSessions := alSet clientId [] st.clientSessions }

/-- TerminalGateway.handleDisconnect: touch every session the connection
owned, then drop the connection's entry.  Sessions are not destroyed. -/
def handleDisconnect (cfg : Config) (now : Nat) (clientId : String)
    (st : GatewayState) : GatewayState :=
  match alGet clientId st.clientSessions with
  | none => st
  | some sids =>
    { svc := sids.foldl (fun s sid => updateSessionAccess cfg now sid s) st.svc
      clientSessions := alErase clientId st.clientSessions }

/-- TerminalGateway.handleCreateSession: reject a missing id; reject an id
already present (AlreadyExists, no spawn); otherwise create the session with
this connection as the output listener, authorize the id for this connection,
and confirm. -/
def handleCreateSession (cfg : Config) (fs : Fs) (now : Nat) (clientId sessionId : String)
    (cwd : Option String) (st : GatewayState) : GatewayState × List Emit :=
  if sessionId = "" then
    (st, [Emit.errorMsg clientId "Session ID is required"])
  else
    match getSession sessionId st.svc with
    | some _ => (st, [Emit.errorMsg clientId "Session already exists"])
    | none =>
      let svc := createSession cfg fs now sessionId clientId clientId cwd st.svc
      let cs :=
        match alGet clientId st.clientSessions with
        | some sids => alSet clientId (setAdd sessionId sids) st.clientSessions
        | none => st.clientSessions
      ({ svc := svc, clientSessions := cs }, [Emit.sessionCreated clientId sessionId])

/-- TerminalGateway.handleInput: after the missing-field guard the payload is
passed straight to writeToSession; there is no authorization check here. -/
def handleInput (clientId sessionId data : String) (st : GatewayState) :
    GatewayState × List Emit :=
  if sessionId = "" then (st, [])
  else ({ st with svc := writeToSession sessionId data st.svc }, [])

/-- TerminalGateway.handleResize: guard missing fields (0 is falsy for
cols/rows), then require the session id to be authorized for this connection
before touching the service. -/
def handleResize (clientId sessionId : String) (cols rows : Nat) (st : GatewayState) :
    GatewayState × List Emit :=
  if sessionId = "" ∨ cols = 0 ∨ rows = 0 then (st, [])
  else
    match alGet clientId st.clientSessions with
    | none => (st, [])
    | some sids =>
      if sessionId ∈ sids then
        ({ st with svc := resizeSession sessionId cols rows st.svc }, [])
      else (st, [])

/-- TerminalGateway.handleDestroySession: guard the missing id, require the
session id to be authorized for this connection, then destroy, deauthorize,
and confirm. -/
def handleDestroySession (clientId sessionId : String) (st : GatewayState) :
    GatewayState × List Emit :=
  if sessionId = "" then (st, [])
  else
    match alGet clientId st.clientSessions with
    | none => (st, [])
    | some sids =>
      if sessionId ∈ sids then
        ({ svc := destroySession sessionId st.svc
           clientSessions :=
             alSet clientId (sids.filter (fun x => x ≠ sessionId)) st.clientSessions },
         [Emit.sessionDestroyed clientId sessionId])
      else (st, [])

/-- Attach one more onData listener to a session's pty (node-pty `onData`
adds a listener; it never replaces the ones already attached). -/
def addListener (sessionId clientId : String) (st : ServiceState) : ServiceState :=
  match alGet sessionId st.sessions with
  | none => st
  | some s =>
    { st with
      sessions := alSet sessionId { s with listeners := s.listeners ++ [clientId] } st.sessions }

/-- TerminalGateway.handleReconnectSession: missing id or unknown id emit
reconnect-failed; otherwise touch the session, authorize the id for this
connection (creating its set if needed), attach this connection as one more
output listener of the session's pty, and emit reconnect-success.  There is
no expiry check and no owner check. -/
def handleReconnectSession (cfg : Config) (now : Nat) (clientId sessionId : String)
    (st : GatewayState) : GatewayState × List Emit :=
  if sessionId = "" then
    (st, [Emit.reconnectFailed clientId sessionId "Session ID is required"])
  else
    match getSession sessionId st.svc with
    | none => (st, [Emit.reconnectFailed clientId sessionId "Session not found or expired"])
    | some _ =>
      let svc1 := updateSessionAccess cfg now sessionId st.svc
      let cs :=
        match alGet clientId st.clientSessions with
        | some sids => alSet clientId (setAdd sessionId sids) st.clientSessions
        | none => alSet clientId [sessionId] st.clientSessions
      ({ svc := addListener sessionId clientId svc1, clientSessions := cs },
       [Emit.reconnectSuccess clientId sessionId])

/-- Output delivery: when the pty of session `sid` emits `data`, every
registered onData callback fires, each emitting an output event to the
connection it closed over. -/
def deliverOutput (st : GatewayState) (sid data : String) : List Emit :=
  match alGet sid st.svc.sessions with
  | none => []
  | some s => s.listeners.map (fun c => Emit.output c sid data)

/-- The sweeper acting on the whole system state. -/
def sweepState (now : Nat) (st : GatewayState) : GatewayState :=
  { st with svc := cleanupExpiredSessions now st.svc }

/-- One step of the system: any gateway handler on any payload, or a sweep. -/
inductive GStep (cfg : Config) (fs : Fs) : GatewayState → GatewayState → Prop
  | conn (st : GatewayState) (c : String) : GStep cfg fs st (handleConnection c st)
  | disc (st : GatewayState) (now : Nat) (c : String) :
      GStep cfg fs st (handleDisconnect cfg now c st)
  | create (st : GatewayState) (now : Nat) (c sid : String) (cwd : Option String) :
      GStep cfg fs st (handleCreateSession cfg fs now c sid cwd st).1
  | inp (st : GatewayState) (c sid data : String) :
      GStep cfg fs st (handleInput c sid data st).1
  | rsz (st : GatewayState) (c sid : String) (cols rows : Nat) :
      GStep cfg fs st (handleResize c sid cols rows st).1
  | dest (st : GatewayState) (c sid : String) :
      GStep cfg fs st (handleDestroySession c sid st).1
  | reconn (st : GatewayState) (now : Nat) (c sid : String) :
      GStep cfg fs st (handleReconnectSession cfg now c sid st).1
  | sweep (st : GatewayState) (now : Nat) : GStep cfg fs st (sweepState now st)

/-- The gateway starts with empty maps, no pty handles, and an empty log. -/
def initialState : GatewayState :=
  { svc := { sessions := [], nextPty := 0, log := [] }, clientSessions := [] }

/-- States reachable from the initial state by gateway messages and sweeps. -/
inductive Reachable (cfg : Config) (fs : Fs) : GatewayState → Prop
  | init : Reachable cfg fs initialState
  | step {st st₂ : GatewayState} : Reachable cfg fs st → GStep cfg fs st st₂ →
      Reachable cfg fs st₂

/-! Concrete configuration and scenario states used to instantiate the
theorems below.  The timeout is 1000 ms; the allowed path does not exist on
the modelled filesystem, so default creations fall back to the home
directory. -/

/-- Sample configuration: timeout 1000 ms, at most 10 sessions. -/
def cfg0 : Config :=
  { shell := "/bin/zsh", allowedPath := "/home/u/safe", sessionTimeout := some 1000
    maxSessions := 10 }

/-- Sample filesystem: only the home directory and /etc exist; resolution is
the identity. -/
def fs0 : Fs :=
  { existsSync := fun p => p == "/home/u" || p == "/etc"
    resolve := fun p => p
    homedir := "/home/u" }

/-- Connection c1 attaches. -/
def stA1 : GatewayState := handleConnection "c1" initialState

/-- Connection c1 creates session s1 at time 0. -/
def stA2 : GatewayState := (handleCreateSession cfg0 fs0 0 "c1" "s1" none stA1).1

/-- Connection c2 attaches; it never created nor reconnected to s1. -/
def stA3 : GatewayState := handleConnection "c2" stA2

/-- Connection c2 reconnects to s1 at time 500. -/
def stB : GatewayState := (handleReconnectSession cfg0 500 "c2" "s1" stA3).1

/-- The registry entry for s1 in `stA2` and `stA3`. -/
def sess1 : TerminalSession :=
  { ptyId := 0, clientId := "c1", listeners := ["c1"], createdAt := 0
    lastAccessedAt := 0, expiresAt := 1000 }

/-! Association-list lemmas. -/

theorem alGet_alSet_self {α : Type} (k : String) (v : α) (l : List (String × α)) :
    alGet k (alSet k v l) = some v := by
  induction l with
  | nil => simp [alSet, alGet]
  | cons hd tl ih =>
    obtain ⟨k₂, v₂⟩ := hd
    by_cases h : k₂ = k
    · simp [alSet, alGet, h]
    · simp [alSet, alGet, h, ih]

theorem alGet_alSet_ne {α : Type} {k₂ k : String} (h : k₂ ≠ k) (v : α)
    (l : List (String × α)) : alGet k₂ (alSet k v l) = alGet k₂ l := by
  have h₂ : ¬ k = k₂ := fun hh => h hh.symm
  induction l with
  | nil => simp [alSet, alGet, h₂]
  | cons hd tl ih =>
    obtain ⟨k₃, v₃⟩ := hd
    by_cases hk : k₃ = k
    · subst hk
      simp [alSet, alGet, h₂]
    · simp [alSet, alGet, hk, ih]

theorem alSet_alSet {α : Type} (k : String) (v₁ v₂ : α) (l : List (String × α)) :
    alSet k v₂ (alSet k v₁ l) = alSet k v₂ l := by
  induction l with
  | nil => simp [alSet]
  | cons hd tl ih =>
    obtain ⟨k₃, v₃⟩ := hd
    by_cases h : k₃ = k
    · simp [alSet, h]
    · simp [alSet, h, ih]

theorem alGet_alErase_ne {α : Type} {k₂ k : String} (h : k₂ ≠ k)
    (l : List (String × α)) : alGet k₂ (alErase k l) = alGet k₂ l := by
  have h₂ : ¬ k = k₂ := fun hh => h hh.symm
  induction l with
  | nil => simp [alErase]
  | cons hd tl ih =>
    obtain ⟨k₃, v₃⟩ := hd
    by_cases hk : k₃ = k
    · subst hk
      simp [alErase, alGet, h₂]
    · simp [alErase, alGet, hk, ih]

theorem alGet_eq_none_iff {α : Type} (k : String) (l : List (String × α)) :
    alGet k l = none ↔ k ∉ l.map Prod.fst := by
  induction l with
  | nil => simp [alGet]
  | cons hd tl ih =>
    obtain ⟨k₂, v₂⟩ := hd
    by_cases h : k₂ = k
    · subst h
      simp [alGet]
    · have h₂ : ¬ k = k₂ := fun hh => h hh.symm
      simp [alGet, h, h₂, ih]

theorem alGet_alErase_self {α : Type} (k : String) {l : List (String × α)}
    (hnd : (l.map Prod.fst).Nodup) : alGet k (alErase k l) = none := by
  induction l with
  | nil => simp [alErase, alGet]
  | cons hd tl ih =>
    obtain ⟨k₂, v₂⟩ := hd
    simp only [List.map_cons, List.nodup_cons] at hnd
    by_cases h : k₂ = k
    · subst h
      simp only [alErase, if_pos rfl]
      exact (alGet_eq_none_iff k₂ tl).2 hnd.1
    · simp [alErase, alGet, h, ih hnd.2]

theorem mem_alSet {α : Type} {p : String × α} {k : String} {v : α}
    {l : List (String × α)} (h : p ∈ alSet k v l) : p = (k, v) ∨ p ∈ l := by
  induction l with
  | nil =>
    simp only [alSet, List.mem_singleton] at h
    exact Or.inl h
  | cons hd tl ih =>
    obtain ⟨k₂, v₂⟩ := hd
    by_cases hk : k₂ = k
    · simp only [alSet, if_pos hk, List.mem_cons] at h
      rcases h with h | h
      · exact Or.inl h
      · exact Or.inr (List.mem_cons_of_mem _ h)
    · simp only [alSet, if_neg hk, List.mem_cons] at h
      rcases h with h | h
      · exact Or.inr (h ▸ List.mem_cons_self _ _)
      · rcases ih h with h₂ | h₂
        · exact Or.inl h₂
        · exact Or.inr (List.mem_cons_of_mem _ h₂)

theorem mem_alErase {α : Type} {p : String × α} {k : String}
    {l : List (String × α)} (h : p ∈ alErase k l) : p ∈ l := by
  induction l with
  | nil => simp [alErase] at h
  | cons hd tl ih =>
    obtain ⟨k₂, v₂⟩ := hd
    by_cases hk : k₂ = k
    · simp only [alErase, if_pos hk] at h
      exact List.mem_cons_of_mem _ h
    · simp only [alErase, if_neg hk, List.mem_cons] at h
      rcases h with h | h
      · exact h ▸ List.mem_cons_self _ _
      · exact List.mem_cons_of_mem _ (ih h)

theorem alGet_eq_some_mem {α : Type} {k : String} {v : α} {l : List (String × α)}
    (h : alGet k l = some v) : (k, v) ∈ l := by
  induction l with
  | nil => simp [alGet] at h
  | cons hd tl ih =>
    obtain ⟨k₂, v₂⟩ := hd
    by_cases hk : k₂ = k
    · subst hk
      simp [alGet] at h
      subst h
      exact List.mem_cons_self _ _
    · simp only [alGet, if_neg hk] at h
      exact List.mem_cons_of_mem _ (ih h)

theorem alGet_of_mem_nodup {α : Type} {k : String} {v : α} {l : List (String × α)}
    (hnd : (l.map Prod.fst).Nodup) (h : (k, v) ∈ l) : alGet k l = some v := by
  induction l with
  | nil => simp at h
  | cons hd tl ih =>
    obtain ⟨k₂, v₂⟩ := hd
    simp only [List.map_cons, List.nodup_cons] at hnd
    rcases List.mem_cons.1 h with h | h
    · have h1 : k = k₂ := congrArg Prod.fst h
      have h2 : v = v₂ := congrArg Prod.snd h
      subst h1
      subst h2
      simp [alGet]
    · by_cases hk : k₂ = k
      · subst hk
        exact absurd (List.mem_map_of_mem Prod.fst h) hnd.1
      · simp [alGet, hk, ih hnd.2 h]

/-! Claim C1. -/

/-- C1 counterexample: connection c2 never created nor reconnected to s1
(its authorized set is empty), yet its input message for s1 is forwarded:
the bytes are written to s1's pty process.  This refutes the claim that such
an input is rejected without the bytes reaching the process. -/
theorem input_without_authorization_forwarded :
    alGet "c2" stA3.clientSessions = some [] ∧
    PtyAction.write 0 "whoami" ∈ (handleInput "c2" "s1" "whoami" stA3).1.svc.log := by
  decide

/-- C1 amended: the gateway applies no authorization check to input — an
input for a session outside the caller's authorized set is forwarded to the
session's process whenever the session exists — while resize and
destroy-session requests for unauthorized ids are rejected without touching
the registry. -/
theorem unauthorized_input_forwarded (c sid data : String) (cols rows : Nat)
    (st : GatewayState) (s : TerminalSession) (sids : List String)
    (hne : sid ≠ "") (hs : alGet sid st.svc.sessions = some s)
    (hc : alGet c st.clientSessions = some sids) (hnotin : sid ∉ sids) :
    handleInput c sid data st =
      ({ st with
          svc := { st.svc with log := st.svc.log ++ [PtyAction.write s.ptyId data] } },
        []) ∧
    handleResize c sid cols rows st = (st, []) ∧
    handleDestroySession c sid st = (st, []) := by
  refine ⟨?_, ?_, ?_⟩
  · simp [handleInput, hne, writeToSession, hs]
  · by_cases hg : sid = "" ∨ cols = 0 ∨ rows = 0
    · simp [handleResize, hg]
    · simp [handleResize, hg, hc, hnotin]
  · simp [handleDestroySession, hne, hc, hnotin]

/-- C1 amended, witnessed at the concrete scenario: c2's unauthorized input
to s1 is written to the pty, while c2's resize and destroy are rejected. -/
theorem unauthorized_input_forwarded_w :
    handleInput "c2" "s1" "whoami" stA3 =
      ({ stA3 with
          svc := { stA3.svc with
            log := stA3.svc.log ++ [PtyAction.write sess1.ptyId "whoami"] } },
        []) ∧
    handleResize "c2" "s1" 80 24 stA3 = (stA3, []) ∧
    handleDestroySession "c2" "s1" stA3 = (stA3, []) :=
  unauthorized_input_forwarded "c2" "s1" "whoami" 80 24 stA3 sess1 []
    (by decide) (by decide) (by decide) (by decide)

/-! Claim C5. -/

/-- C5: a create-session for an id already present yields the AlreadyExists
error event and leaves the whole state — registry entry, process log (so no
spawn), timestamps, and authorization maps — exactly unchanged. -/
theorem duplicate_create_rejected (cfg : Config) (fs : Fs) (now : Nat)
    (c sid : String) (cwd : Option String) (st : GatewayState) (s : TerminalSession)
    (hne : sid ≠ "") (hs : getSession sid st.svc = some s) :
    handleCreateSession cfg fs now c sid cwd st =
      (st, [Emit.errorMsg c "Session already exists"]) := by
  simp [handleCreateSession, hne, hs]

/-- C5 witnessed: a second create for s1 (from another connection, at a later
time) emits the error and leaves the state unchanged. -/
theorem duplicate_create_rejected_w :
    handleCreateSession cfg0 fs0 7 "c2" "s1" none stA3 =
      (stA3, [Emit.errorMsg "c2" "Session already exists"]) :=
  duplicate_create_rejected cfg0 fs0 7 "c2" "s1" none stA3 sess1 (by decide) (by decide)

/-! Claim C8. -/

/-- C8: writing to or destroying an absent session id is a silent no-op that
leaves the registry unchanged; destroy is idempotent, and input sent after a
destroy is silently ignored. -/
theorem absent_id_noop_and_destroy_idempotent (sid data : String) (st : ServiceState)
    (hnd : (st.sessions.map Prod.fst).Nodup) :
    (alGet sid st.sessions = none →
      writeToSession sid data st = st ∧ destroySession sid st = st) ∧
    destroySession sid (destroySession sid st) = destroySession sid st ∧
    writeToSession sid data (destroySession sid st) = destroySession sid st := by
  have key : ∀ st₂ : ServiceState, alGet sid st₂.sessions = none →
      writeToSession sid data st₂ = st₂ ∧ destroySession sid st₂ = st₂ := by
    intro st₂ h
    exact ⟨by simp [writeToSession, h], by simp [destroySession, h]⟩
  have h₂ : alGet sid (destroySession sid st).sessions = none := by
    cases hget : alGet sid st.sessions with
    | none => simp [destroySession, hget]
    | some s => simp [destroySession, hget, alGet_alErase_self sid hnd]
  exact ⟨key st, (key _ h₂).2, (key _ h₂).1⟩

/-- C8 witnessed on the concrete scenario state: s9 is absent, so write and
destroy are no-ops; destroying s1 twice equals destroying it once, and a
write after the destroy is ignored. -/
theorem absent_id_noop_and_destroy_idempotent_w :
    (alGet "s9" stA3.svc.sessions = none →
      writeToSession "s9" "x" stA3.svc = stA3.svc ∧
      destroySession "s9" stA3.svc = stA3.svc) ∧
    destroySession "s9" (destroySession "s9" stA3.svc) = destroySession "s9" stA3.svc ∧
    writeToSession "s9" "x" (destroySession "s9" stA3.svc) = destroySession "s9" stA3.svc :=
  absent_id_noop_and_destroy_idempotent "s9" "x" stA3.svc (by decide)

/-! Claim C9. -/

/-- C9: for a create-session carrying a custom working directory, the path
check consults only the filesystem existence of the resolved, tilde-expanded
path: an existing path becomes the spawned process's cwd no matter what the
configured allowedPath is (the outcome is identical for any two allowedPath
values), and a non-existent path falls back to the home directory. -/
theorem custom_cwd_only_existence_checked (cfg : Config) (fs : Fs) (now : Nat)
    (sid c listener cwd : String) (st : ServiceState) (a₁ a₂ : String)
    (hc : cwd ≠ "") :
    (createSession cfg fs now sid c listener (some cwd) st).log =
      st.log ++ [PtyAction.spawn st.nextPty
        (if fs.existsSync (fs.resolve (expandTilde cwd fs.homedir)) then
          fs.resolve (expandTilde cwd fs.homedir)
        else fs.homedir)] ∧
    createSession { cfg with allowedPath := a₁ } fs now sid c listener (some cwd) st =
      createSession { cfg with allowedPath := a₂ } fs now sid c listener (some cwd) st := by
  constructor
  · simp [createSession, jsOrStr, hc, validatePath]
  · simp [createSession, jsOrStr, hc, timeoutOf]

/-- C9 witnessed: /etc exists on the modelled filesystem and lies outside the
configured allowedPath /home/u/safe, yet it is accepted as the spawn cwd, for
any allowedPath configuration. -/
theorem custom_cwd_only_existence_checked_w :
    (createSession cfg0 fs0 3 "s9" "c9" "c9" (some "/etc") initialState.svc).log =
      initialState.svc.log ++ [PtyAction.spawn initialState.svc.nextPty
        (if fs0.existsSync (fs0.resolve (expandTilde "/etc" fs0.homedir)) then
          fs0.resolve (expandTilde "/etc" fs0.homedir)
        else fs0.homedir)] ∧
    createSession { cfg0 with allowedPath := "/home/u/safe" } fs0 3 "s9" "c9" "c9"
        (some "/etc") initialState.svc =
      createSession { cfg0 with allowedPath := "/nowhere/else" } fs0 3 "s9" "c9" "c9"
        (some "/etc") initialState.svc :=
  custom_cwd_only_existence_checked cfg0 fs0 3 "s9" "c9" "c9" "/etc" initialState.svc
    "/home/u/safe" "/nowhere/else" (by decide)

/-! Claim C10. -/

/-- C10: the configured maxSessions bound is never enforced: a create with a
fresh id succeeds and inserts the new session whatever the current registry
contents, and the handler's outcome is identical for any two maxSessions
values. -/
theorem max_sessions_not_enforced (cfg : Config) (fs : Fs) (now : Nat)
    (c sid : String) (cwd : Option String) (st : GatewayState) (m₁ m₂ : Nat)
    (hne : sid ≠ "") (habs : getSession sid st.svc = none) :
    handleCreateSession { cfg with maxSessions := m₁ } fs now c sid cwd st =
      handleCreateSession { cfg with maxSessions := m₂ } fs now c sid cwd st ∧
    (handleCreateSession cfg fs now c sid cwd st).2 = [Emit.sessionCreated c sid] ∧
    alGet sid (handleCreateSession cfg fs now c sid cwd st).1.svc.sessions =
      some { ptyId := st.svc.nextPty, clientId := c, listeners := [c], createdAt := now
             lastAccessedAt := now, expiresAt := now + timeoutOf cfg } := by
  refine ⟨?_, ?_, ?_⟩
  · simp [handleCreateSession, hne, habs, createSession, timeoutOf]
  · simp [handleCreateSession, hne, habs]
  · simp [handleCreateSession, hne, habs, createSession, timeoutOf, alGet_alSet_self]

/-- C10 witnessed: with a registry already holding s1 and maxSessions values
10 and 0, creating fresh id s2 behaves identically and succeeds. -/
theorem max_sessions_not_enforced_w :
    handleCreateSession { cfg0 with maxSessions := 10 } fs0 4 "c2" "s2" none stA3 =
      handleCreateSession { cfg0 with maxSessions := 0 } fs0 4 "c2" "s2" none stA3 ∧
    (handleCreateSession cfg0 fs0 4 "c2" "s2" none stA3).2 =
      [Emit.sessionCreated "c2" "s2"] ∧
    alGet "s2" (handleCreateSession cfg0 fs0 4 "c2" "s2" none stA3).1.svc.sessions =
      some { ptyId := stA3.svc.nextPty, clientId := "c2", listeners := ["c2"]
             createdAt := 4, lastAccessedAt := 4, expiresAt := 4 + timeoutOf cfg0 } :=
  max_sessions_not_enforced cfg0 fs0 4 "c2" "s2" none stA3 10 0 (by decide) (by decide)

/-! Reconnect characterization, shared by the C2 and C3 results. -/

/-- Effect of a reconnect for a session id present in the registry: the entry
is touched, the connection is authorized, and the connection is appended to
the output listeners already attached to the pty. -/
theorem handleReconnect_present_eq (cfg : Config) (now : Nat) (c sid : String)
    (st : GatewayState) (s : TerminalSession)
    (hne : sid ≠ "") (hs : alGet sid st.svc.sessions = some s) :
    handleReconnectSession cfg now c sid st =
      ({ svc := { st.svc with
            sessions := alSet sid
              { s with lastAccessedAt := now, expiresAt := now + timeoutOf cfg,
                       listeners := s.listeners ++ [c] } st.svc.sessions },
          clientSessions :=
            match alGet c st.clientSessions with
            | some sids => alSet c (setAdd sid sids) st.clientSessions
            | none => alSet c [sid] st.clientSessions },
        [Emit.reconnectSuccess c sid]) := by
  have htouch : updateSessionAccess cfg now sid st.svc =
      { st.svc with
        sessions := alSet sid
          { s with lastAccessedAt := now, expiresAt := now + timeoutOf cfg }
          st.svc.sessions } := by
    simp [updateSessionAccess, hs]
  have hget₂ : alGet sid (updateSessionAccess cfg now sid st.svc).sessions =
      some { s with lastAccessedAt := now, expiresAt := now + timeoutOf cfg } := by
    rw [htouch]
    exact alGet_alSet_self _ _ _
  simp [handleReconnectSession, hne, getSession, hs, addListener, hget₂, htouch,
    alSet_alSet, alGet_alSet_self]

/-! Claim C2. -/

/-- C2 counterexample: c1 created s1 and stayed connected; c2 then issued a
successful reconnect to s1.  When the process emits bytes, both c1 and c2
receive them: output is not delivered only to the most recently bound
connection, and the previously bound connection keeps receiving it. -/
theorem output_delivered_to_old_connection :
    (handleReconnectSession cfg0 500 "c2" "s1" stA3).2 =
      [Emit.reconnectSuccess "c2" "s1"] ∧
    deliverOutput stB "s1" "hi" =
      [Emit.output "c1" "s1" "hi", Emit.output "c2" "s1" "hi"] := by
  decide

/-- C2 amended: output listeners accumulate.  A session's process output is
delivered to every connection that created or reconnected to it, in
registration order; a reconnect appends the new connection to the existing
listener list, and previously bound connections continue to receive the
session's output. -/
theorem reconnect_accumulates_listeners (cfg : Config) (now : Nat)
    (c sid data : String) (st : GatewayState) (s : TerminalSession)
    (hne : sid ≠ "") (hs : alGet sid st.svc.sessions = some s) :
    alGet sid (handleReconnectSession cfg now c sid st).1.svc.sessions =
      some { s with lastAccessedAt := now, expiresAt := now + timeoutOf cfg,
                    listeners := s.listeners ++ [c] } ∧
    deliverOutput (handleReconnectSession cfg now c sid st).1 sid data =
      (s.listeners ++ [c]).map (fun x => Emit.output x sid data) := by
  rw [handleReconnect_present_eq cfg now c sid st s hne hs]
  refine ⟨alGet_alSet_self _ _ _, ?_⟩
  simp [deliverOutput, alGet_alSet_self]

/-- C2 amended, witnessed at the concrete scenario: after c2 reconnects to
s1, the entry lists both c1 and c2 as listeners and output goes to both. -/
theorem reconnect_accumulates_listeners_w :
    alGet "s1" (handleReconnectSession cfg0 500 "c2" "s1" stA3).1.svc.sessions =
      some { sess1 with lastAccessedAt := 500, expiresAt := 500 + timeoutOf cfg0,
                        listeners := sess1.listeners ++ ["c2"] } ∧
    deliverOutput (handleReconnectSession cfg0 500 "c2" "s1" stA3).1 "s1" "hi" =
      (sess1.listeners ++ ["c2"]).map (fun x => Emit.output x "s1" "hi") :=
  reconnect_accumulates_listeners cfg0 500 "c2" "s1" "hi" stA3 sess1
    (by decide) (by decide)

/-! Claim C3. -/

/-- C3 counterexample: s1 expired at time 1000 yet is still in the registry;
a reconnect at time 5000 nevertheless succeeds and refreshes the deadline to
6000, where the claim requires reconnect-failed for an expired session. -/
theorem reconnect_succeeds_on_expired_session :
    (alGet "s1" stA3.svc.sessions).map TerminalSession.expiresAt = some 1000 ∧
    (1000 : Nat) < 5000 ∧
    (handleReconnectSession cfg0 5000 "c2" "s1" stA3).2 =
      [Emit.reconnectSuccess "c2" "s1"] ∧
    (alGet "s1" (handleReconnectSession cfg0 5000 "c2" "s1" stA3).1.svc.sessions).map
      TerminalSession.expiresAt = some 6000 := by
  decide

/-- C3 amended: a reconnect-session for an id absent from the registry emits
reconnect-failed and changes nothing; expiry is never consulted — for an id
present in the registry, even one whose expiresAt has already passed, and for
any connection c with no owner check, the gateway touches the session, adds
the id to c's authorized set, appends c to the pty's output listeners, and
emits reconnect-success. -/
theorem reconnect_behaviour (cfg : Config) (now : Nat) (c sid : String)
    (st : GatewayState) (hne : sid ≠ "") :
    handleReconnectSession cfg now c sid st =
      match alGet sid st.svc.sessions with
      | none => (st, [Emit.reconnectFailed c sid "Session not found or expired"])
      | some s =>
        ({ svc := { st.svc with
              sessions := alSet sid
                { s with lastAccessedAt := now, expiresAt := now + timeoutOf cfg,
                         listeners := s.listeners ++ [c] } st.svc.sessions },
            clientSessions :=
              match alGet c st.clientSessions with
              | some sids => alSet c (setAdd sid sids) st.clientSessions
              | none => alSet c [sid] st.clientSessions },
          [Emit.reconnectSuccess c sid]) := by
  cases hs : alGet sid st.svc.sessions with
  | none => simp [handleReconnectSession, hne, getSession, hs]
  | some s =>
    simp only [hs]
    exact handleReconnect_present_eq cfg now c sid st s hne hs

/-- C3 amended, witnessed: the expired-but-present reconnect at time 5000
follows the characterization. -/
theorem reconnect_behaviour_w :
    handleReconnectSession cfg0 5000 "c2" "s1" stA3 =
      match alGet "s1" stA3.svc.sessions with
      | none => (stA3, [Emit.reconnectFailed "c2" "s1" "Session not found or expired"])
      | some s =>
        ({ svc := { stA3.svc with
              sessions := alSet "s1"
                { s with lastAccessedAt := 5000, expiresAt := 5000 + timeoutOf cfg0,
                         listeners := s.listeners ++ ["c2"] } stA3.svc.sessions },
            clientSessions :=
              match alGet "c2" stA3.clientSessions with
              | some sids => alSet "c2" (setAdd "s1" sids) stA3.clientSessions
              | none => alSet "c2" ["s1"] stA3.clientSessions },
          [Emit.reconnectSuccess "c2" "s1"]) :=
  reconnect_behaviour cfg0 5000 "c2" "s1" stA3 (by decide)

/-! Touch and fold lemmas, used by the C4 and C6 results. -/

/-- Lookup after a single touch: the touched id gets fresh timestamps, any
other id is unchanged. -/
theorem touch_get_eq (cfg : Config) (now : Nat) (x sid : String) (svc : ServiceState) :
    alGet sid (updateSessionAccess cfg now x svc).sessions =
      if sid = x then
        (alGet sid svc.sessions).map
          (fun s => { s with lastAccessedAt := now, expiresAt := now + timeoutOf cfg })
      else alGet sid svc.sessions := by
  by_cases h : sid = x
  · subst h
    cases hx : alGet sid svc.sessions with
    | none => simp [updateSessionAccess, hx]
    | some s => simp [updateSessionAccess, hx, alGet_alSet_self]
  · cases hx : alGet x svc.sessions with
    | none => simp [updateSessionAccess, hx, h]
    | some s => simp [updateSessionAccess, hx, h, alGet_alSet_ne h]

/-- A touch never changes the pty counter or the process-action log. -/
theorem touch_fields (cfg : Config) (now : Nat) (x : String) (svc : ServiceState) :
    (updateSessionAccess cfg now x svc).nextPty = svc.nextPty ∧
    (updateSessionAccess cfg now x svc).log = svc.log := by
  cases hx : alGet x svc.sessions <;> simp [updateSessionAccess, hx]

/-- Lookup after the disconnect loop of touches: ids in the list get fresh
timestamps, all others are unchanged (touching twice is idempotent, so no
duplicate-freeness is needed). -/
theorem foldTouch_get (cfg : Config) (now : Nat) (sids : List String)
    (svc : ServiceState) (sid : String) :
    alGet sid (sids.foldl (fun s x => updateSessionAccess cfg now x s) svc).sessions =
      if sid ∈ sids then
        (alGet sid svc.sessions).map
          (fun s => { s with lastAccessedAt := now, expiresAt := now + timeoutOf cfg })
      else alGet sid svc.sessions := by
  induction sids generalizing svc with
  | nil => simp
  | cons x rest ih =>
    simp only [List.foldl_cons]
    rw [ih, touch_get_eq]
    by_cases hx : sid = x
    · subst hx
      have hmem : sid ∈ sid :: rest := List.mem_cons_self _ _
      rw [if_pos rfl, if_pos hmem]
      by_cases hrest : sid ∈ rest
      · rw [if_pos hrest]
        cases alGet sid svc.sessions <;> simp
      · rw [if_neg hrest]
    · rw [if_neg hx]
      by_cases hrest : sid ∈ rest
      · rw [if_pos hrest, if_pos (List.mem_cons_of_mem _ hrest)]
      · rw [if_neg hrest, if_neg (by simp [List.mem_cons, hx, hrest])]

/-- The disconnect loop of touches never changes the pty counter or log. -/
theorem foldTouch_fields (cfg : Config) (now : Nat) (sids : List String)
    (svc : ServiceState) :
    (sids.foldl (fun s x => updateSessionAccess cfg now x s) svc).nextPty = svc.nextPty ∧
    (sids.foldl (fun s x => updateSessionAccess cfg now x s) svc).log = svc.log := by
  induction sids generalizing svc with
  | nil => exact ⟨rfl, rfl⟩
  | cons x rest ih =>
    simp only [List.foldl_cons]
    obtain ⟨h1, h2⟩ := ih (updateSessionAccess cfg now x svc)
    obtain ⟨h3, h4⟩ := touch_fields cfg now x svc
    exact ⟨h1.trans h3, h2.trans h4⟩

/-! Claim C4. -/

/-- C4: on disconnect of connection c, every session id in c's authorized set
that is present in the registry is touched — its lastAccessedAt becomes the
disconnect time and its expiresAt the disconnect time plus the full timeout —
while sessions outside the set are untouched, c's authorization entry is
dropped, and no session is destroyed and no process is killed or spawned (the
process-action log and pty counter are unchanged, and every touched entry
keeps its pty handle). -/
theorem disconnect_touches_not_destroys (cfg : Config) (now : Nat) (c : String)
    (st : GatewayState) (sids : List String) (sid sidOut : String)
    (s : TerminalSession)
    (hnd : (st.clientSessions.map Prod.fst).Nodup)
    (hc : alGet c st.clientSessions = some sids)
    (hmem : sid ∈ sids) (hs : alGet sid st.svc.sessions = some s)
    (hout : sidOut ∉ sids) :
    alGet sid (handleDisconnect cfg now c st).svc.sessions =
      some { s with lastAccessedAt := now, expiresAt := now + timeoutOf cfg } ∧
    alGet sidOut (handleDisconnect cfg now c st).svc.sessions =
      alGet sidOut st.svc.sessions ∧
    alGet c (handleDisconnect cfg now c st).clientSessions = none ∧
    (handleDisconnect cfg now c st).svc.log = st.svc.log ∧
    (handleDisconnect cfg now c st).svc.nextPty = st.svc.nextPty := by
  have hd : handleDisconnect cfg now c st =
      { svc := sids.foldl (fun s x => updateSessionAccess cfg now x s) st.svc
        clientSessions := alErase c st.clientSessions } := by
    simp [handleDisconnect, hc]
  rw [hd]
  refine ⟨?_, ?_, ?_, ?_, ?_⟩
  · rw [foldTouch_get, if_pos hmem, hs]
    rfl
  · rw [foldTouch_get, if_neg hout]
  · exact alGet_alErase_self c hnd
  · exact (foldTouch_fields cfg now sids st.svc).2
  · exact (foldTouch_fields cfg now sids st.svc).1

/-- C4 witnessed: c1 disconnects from the concrete scenario state; s1 is
touched at time 900, s9 (not owned) is untouched, c1's entry is dropped, and
the log and pty counter are unchanged. -/
theorem disconnect_touches_not_destroys_w :
    alGet "s1" (handleDisconnect cfg0 900 "c1" stA3).svc.sessions =
      some { sess1 with lastAccessedAt := 900, expiresAt := 900 + timeoutOf cfg0 } ∧
    alGet "s9" (handleDisconnect cfg0 900 "c1" stA3).svc.sessions =
      alGet "s9" stA3.svc.sessions ∧
    alGet "c1" (handleDisconnect cfg0 900 "c1" stA3).clientSessions = none ∧
    (handleDisconnect cfg0 900 "c1" stA3).svc.log = stA3.svc.log ∧
    (handleDisconnect cfg0 900 "c1" stA3).svc.nextPty = stA3.svc.nextPty :=
  disconnect_touches_not_destroys cfg0 900 "c1" stA3 ["s1"] "s1" "s9" sess1
    (by decide) (by decide) (by decide) (by decide) (by decide)

/-! Sweep lemmas for the C7 result. -/

/-- Erasing a key keeps the key list a sublist of the original. -/
theorem keys_alErase_sublist {α : Type} (k : String) (l : List (String × α)) :
    ((alErase k l).map Prod.fst).Sublist (l.map Prod.fst) := by
  induction l with
  | nil => simp [alErase]
  | cons hd tl ih =>
    obtain ⟨k₂, v₂⟩ := hd
    by_cases hk : k₂ = k
    · simp only [alErase, if_pos hk, List.map_cons]
      exact List.sublist_cons_of_sublist _ (List.Sublist.refl _)
    · simp only [alErase, if_neg hk, List.map_cons]
      exact List.Sublist.cons₂ _ ih

/-- Erasing a key preserves duplicate-freeness of the key list. -/
theorem nodup_keys_alErase {α : Type} (k : String) {l : List (String × α)}
    (hnd : (l.map Prod.fst).Nodup) : ((alErase k l).map Prod.fst).Nodup :=
  hnd.sublist (keys_alErase_sublist k l)

/-- The cleanup loop only appends to the process-action log. -/
theorem sweepGo_log_mono (now : Nat) (entries : List (String × TerminalSession))
    (st : ServiceState) (x : PtyAction) (hx : x ∈ st.log) :
    x ∈ (sweepGo now entries st).log := by
  induction entries generalizing st with
  | nil => exact hx
  | cons hd rest ih =>
    obtain ⟨k, s⟩ := hd
    simp only [sweepGo]
    by_cases hexp : s.expiresAt < now
    · rw [if_pos hexp]
      refine ih (destroySession k st) ?_
      cases hk : alGet k st.sessions with
      | none => simpa [destroySession, hk] using hx
      | some s₂ => simp [destroySession, hk, hx]
    · rw [if_neg hexp]
      exact ih st hx

/-- Behaviour of the cleanup loop on a snapshot of current entries: an id is
removed exactly when its snapshot value is past deadline (and its pty is
killed); any other id keeps its current entry. -/
theorem sweepGo_spec (now : Nat) (sid : String)
    (entries : List (String × TerminalSession)) (st : ServiceState)
    (hndE : (entries.map Prod.fst).Nodup)
    (hndS : (st.sessions.map Prod.fst).Nodup)
    (hcur : ∀ p ∈ entries, alGet p.1 st.sessions = some p.2) :
    (alGet sid (sweepGo now entries st).sessions =
      match alGet sid entries with
      | some s => if s.expiresAt < now then none else alGet sid st.sessions
      | none => alGet sid st.sessions) ∧
    (∀ s : TerminalSession, (sid, s) ∈ entries → s.expiresAt < now →
      PtyAction.kill s.ptyId ∈ (sweepGo now entries st).log) := by
  induction entries generalizing st with
  | nil =>
    refine ⟨by simp [sweepGo, alGet], ?_⟩
    intro s hmem
    simp at hmem
  | cons hd rest ih =>
    obtain ⟨k, sv⟩ := hd
    simp only [List.map_cons, List.nodup_cons] at hndE
    have hk : alGet k st.sessions = some sv := hcur (k, sv) (List.mem_cons_self _ _)
    simp only [sweepGo]
    by_cases hexp : sv.expiresAt < now
    · rw [if_pos hexp]
      have hdestroy : destroySession k st =
          { sessions := alErase k st.sessions, nextPty := st.nextPty
            log := st.log ++ [PtyAction.kill sv.ptyId] } := by
        simp [destroySession, hk]
      have hndS₂ : ((destroySession k st).sessions.map Prod.fst).Nodup := by
        rw [hdestroy]
        exact nodup_keys_alErase k hndS
      have hcur₂ : ∀ p ∈ rest, alGet p.1 (destroySession k st).sessions = some p.2 := by
        intro p hp
        have hne : p.1 ≠ k := by
          intro hh
          exact hndE.1 (hh ▸ List.mem_map_of_mem Prod.fst hp)
        rw [hdestroy]
        simpa [alGet_alErase_ne hne] using hcur p (List.mem_cons_of_mem _ hp)
      obtain ⟨ihget, ihkill⟩ := ih (destroySession k st) hndE.2 hndS₂ hcur₂
      constructor
      · rw [ihget]
        by_cases hsid : k = sid
        · subst hsid
          have hnone : alGet k rest = none :=
            (alGet_eq_none_iff k rest).2 hndE.1
          have hgone : alGet k (destroySession k st).sessions = none := by
            rw [hdestroy]
            exact alGet_alErase_self k hndS
          simp [alGet, hnone, hgone, hexp]
        · have heq : alGet sid (destroySession k st).sessions =
              alGet sid st.sessions := by
            rw [hdestroy]
            exact alGet_alErase_ne (fun hh => hsid hh.symm) _
          cases halr : alGet sid rest <;> simp [alGet, hsid, halr, heq]
      · intro s hmem hexp₂
        rcases List.mem_cons.1 hmem with hmem | hmem
        · have h1 : sid = k := congrArg Prod.fst hmem
          have h2 : s = sv := congrArg Prod.snd hmem
          subst h1
          subst h2
          refine sweepGo_log_mono now rest (destroySession sid st) _ ?_
          rw [hdestroy]
          simp
        · exact ihkill s hmem hexp₂
    · rw [if_neg hexp]
      obtain ⟨ihget, ihkill⟩ :=
        ih st hndE.2 hndS (fun p hp => hcur p (List.mem_cons_of_mem _ hp))
      constructor
      · rw [ihget]
        by_cases hsid : k = sid
        · subst hsid
          have hnone : alGet k rest = none :=
            (alGet_eq_none_iff k rest).2 hndE.1
          simp [alGet, hnone, hk, hexp]
        · cases halr : alGet sid rest <;> simp [alGet, hsid, halr]
      · intro s hmem hexp₂
        rcases List.mem_cons.1 hmem with hmem | hmem
        · have h2 : s = sv := congrArg Prod.snd hmem
          exact absurd (h2 ▸ hexp₂) hexp
        · exact ihkill s hmem hexp₂

/-! Claim C7. -/

/-- C7: a sweep at time now destroys exactly the sessions whose expiresAt is
strictly earlier than now: every such session is killed (a kill of its pty is
logged) and removed from the registry, while every session whose expiresAt is
at or after now keeps its entry unchanged. -/
theorem sweep_destroys_exactly_expired (now : Nat) (st : ServiceState)
    (sid : String) (s : TerminalSession)
    (hnd : (st.sessions.map Prod.fst).Nodup)
    (hs : alGet sid st.sessions = some s) :
    (s.expiresAt < now →
      alGet sid (cleanupExpiredSessions now st).sessions = none ∧
      PtyAction.kill s.ptyId ∈ (cleanupExpiredSessions now st).log) ∧
    (¬ s.expiresAt < now →
      alGet sid (cleanupExpiredSessions now st).sessions = some s) := by
  have hcur : ∀ p ∈ st.sessions, alGet p.1 st.sessions = some p.2 := by
    intro p hp
    exact alGet_of_mem_nodup hnd (by exact hp)
  obtain ⟨hget, hkill⟩ := sweepGo_spec now sid st.sessions st hnd hnd hcur
  rw [cleanupExpiredSessions] at *
  constructor
  · intro hexp
    refine ⟨?_, hkill s (alGet_eq_some_mem hs) hexp⟩
    rw [hget, hs]
    simp [hexp]
  · intro hexp
    rw [hget, hs]
    simp [hexp]

/-- C7 witnessed: sweeping the concrete scenario at time 5000 destroys s1
(expired at 1000): its entry is gone and its pty kill is logged; sweeping at
time 1000 keeps it, since its deadline has not strictly passed. -/
theorem sweep_destroys_exactly_expired_w :
    ((sess1.expiresAt < 5000 →
      alGet "s1" (cleanupExpiredSessions 5000 stA3.svc).sessions = none ∧
      PtyAction.kill sess1.ptyId ∈ (cleanupExpiredSessions 5000 stA3.svc).log) ∧
    (¬ sess1.expiresAt < 5000 →
      alGet "s1" (cleanupExpiredSessions 5000 stA3.svc).sessions = some sess1)) ∧
    ((sess1.expiresAt < 1000 →
      alGet "s1" (cleanupExpiredSessions 1000 stA3.svc).sessions = none ∧
      PtyAction.kill sess1.ptyId ∈ (cleanupExpiredSessions 1000 stA3.svc).log) ∧
    (¬ sess1.expiresAt < 1000 →
      alGet "s1" (cleanupExpiredSessions 1000 stA3.svc).sessions = some sess1)) :=
  ⟨sweep_destroys_exactly_expired 5000 stA3.svc "s1" sess1 (by decide) (by decide),
   sweep_destroys_exactly_expired 1000 stA3.svc "s1" sess1 (by decide) (by decide)⟩

/-! Deadline invariant machinery for the C6 result. -/

/-- The deadline equation over a service state: every registry entry has
`expiresAt = lastAccessedAt + timeout`. -/
def SInv (cfg : Config) (svc : ServiceState) : Prop :=
  ∀ p ∈ svc.sessions, p.2.expiresAt = p.2.lastAccessedAt + timeoutOf cfg

theorem writeToSession_sessions (sid data : String) (svc : ServiceState) :
    (writeToSession sid data svc).sessions = svc.sessions := by
  cases h : alGet sid svc.sessions <;> simp [writeToSession, h]

theorem resizeSession_sessions (sid : String) (cols rows : Nat) (svc : ServiceState) :
    (resizeSession sid cols rows svc).sessions = svc.sessions := by
  cases h : alGet sid svc.sessions <;> simp [resizeSession, h]

theorem sinv_createSession (cfg : Config) (fs : Fs) (now : Nat)
    (sid c listener : String) (cwd : Option String) (svc : ServiceState)
    (h : SInv cfg svc) : SInv cfg (createSession cfg fs now sid c listener cwd svc) := by
  intro p hp
  rcases mem_alSet hp with hp₂ | hp₂
  · rw [hp₂]
  · exact h p hp₂

theorem sinv_touch (cfg : Config) (now : Nat) (x : String) (svc : ServiceState)
    (h : SInv cfg svc) : SInv cfg (updateSessionAccess cfg now x svc) := by
  intro p hp
  cases halg : alGet x svc.sessions with
  | none =>
    rw [updateSessionAccess, halg] at hp
    exact h p hp
  | some s =>
    rw [updateSessionAccess, halg] at hp
    rcases mem_alSet hp with hp₂ | hp₂
    · rw [hp₂]
    · exact h p hp₂

theorem sinv_destroy (cfg : Config) (sid : String) (svc : ServiceState)
    (h : SInv cfg svc) : SInv cfg (destroySession sid svc) := by
  intro p hp
  cases halg : alGet sid svc.sessions with
  | none =>
    rw [destroySession, halg] at hp
    exact h p hp
  | some s =>
    rw [destroySession, halg] at hp
    exact h p (mem_alErase hp)

theorem sinv_addListener (cfg : Config) (sid c : String) (svc : ServiceState)
    (h : SInv cfg svc) : SInv cfg (addListener sid c svc) := by
  intro p hp
  cases halg : alGet sid svc.sessions with
  | none =>
    rw [addListener, halg] at hp
    exact h p hp
  | some s =>
    rw [addListener, halg] at hp
    rcases mem_alSet hp with hp₂ | hp₂
    · rw [hp₂]
      exact h (sid, s) (alGet_eq_some_mem halg)
    · exact h p hp₂

theorem sinv_fold (cfg : Config) (now : Nat) (sids : List String) (svc : ServiceState)
    (h : SInv cfg svc) :
    SInv cfg (sids.foldl (fun s x => updateSessionAccess cfg now x s) svc) := by
  induction sids generalizing svc with
  | nil => exact h
  | cons x rest ih =>
    simp only [List.foldl_cons]
    exact ih _ (sinv_touch cfg now x svc h)

theorem sinv_sweepGo (cfg : Config) (now : Nat)
    (entries : List (String × TerminalSession)) (svc : ServiceState)
    (h : SInv cfg svc) : SInv cfg (sweepGo now entries svc) := by
  induction entries generalizing svc with
  | nil => exact h
  | cons hd rest ih =>
    obtain ⟨k, s⟩ := hd
    simp only [sweepGo]
    by_cases hexp : s.expiresAt < now
    · rw [if_pos hexp]
      exact ih _ (sinv_destroy cfg k svc h)
    · rw [if_neg hexp]
      exact ih _ h

theorem sinv_gstep {cfg : Config} {fs : Fs} {st st₂ : GatewayState}
    (hstep : GStep cfg fs st st₂) (h : SInv cfg st.svc) : SInv cfg st₂.svc := by
  cases hstep with
  | conn c => exact h
  | disc now c =>
    cases halc : alGet c st.clientSessions with
    | none => simpa [handleDisconnect, halc] using h
    | some sids =>
      simp only [handleDisconnect, halc]
      exact sinv_fold cfg now sids st.svc h
  | create now c sid cwd =>
    by_cases hne : sid = ""
    · simpa [handleCreateSession, hne] using h
    · cases hg : getSession sid st.svc with
      | some s => simpa [handleCreateSession, hne, hg] using h
      | none =>
        simp only [handleCreateSession, if_neg hne, hg]
        exact sinv_createSession cfg fs now sid c c cwd st.svc h
  | inp c sid data =>
    by_cases hne : sid = ""
    · simpa [handleInput, hne] using h
    · simp only [handleInput, if_neg hne]
      intro p hp
      rw [writeToSession_sessions] at hp
      exact h p hp
  | rsz c sid cols rows =>
    by_cases hg : sid = "" ∨ cols = 0 ∨ rows = 0
    · simpa [handleResize, hg] using h
    · cases halc : alGet c st.clientSessions with
      | none => simpa [handleResize, hg, halc] using h
      | some sids =>
        by_cases hmem : sid ∈ sids
        · simp only [handleResize, if_neg hg, halc, if_pos hmem]
          intro p hp
          rw [resizeSession_sessions] at hp
          exact h p hp
        · simpa [handleResize, hg, halc, hmem] using h
  | dest c sid =>
    by_cases hne : sid = ""
    · simpa [handleDestroySession, hne] using h
    · cases halc : alGet c st.clientSessions with
      | none => simpa [handleDestroySession, hne, halc] using h
      | some sids =>
        by_cases hmem : sid ∈ sids
        · simp only [handleDestroySession, if_neg hne, halc, if_pos hmem]
          exact sinv_destroy cfg sid st.svc h
        · simpa [handleDestroySession, hne, halc, hmem] using h
  | reconn now c sid =>
    by_cases hne : sid = ""
    · simpa [handleReconnectSession, hne] using h
    · cases hg : getSession sid st.svc with
      | none => simpa [handleReconnectSession, hne, hg] using h
      | some s =>
        simp only [handleReconnectSession, if_neg hne, hg]
        exact sinv_addListener cfg sid c _ (sinv_touch cfg now sid st.svc h)
  | sweep now => exact sinv_sweepGo cfg now st.svc.sessions st.svc h

/-- Every reachable state satisfies the deadline equation. -/
theorem reachable_sinv (cfg : Config) (fs : Fs) (st : GatewayState)
    (h : Reachable cfg fs st) : SInv cfg st.svc := by
  induction h with
  | init =>
    intro p hp
    simp [initialState] at hp
  | step hr hstep ih => exact sinv_gstep hstep ih

/-! Claim C6. -/

/-- C6: in every reachable state of the system (gateway messages plus
sweeps), every registry entry satisfies expiresAt = lastAccessedAt + the
configured session timeout; creation establishes it and every operation,
including each touch on bind, reconnect, and disconnect, preserves it. -/
theorem session_deadline_invariant (cfg : Config) (fs : Fs) (st : GatewayState)
    (h : Reachable cfg fs st) (sid : String) (s : TerminalSession)
    (hs : alGet sid st.svc.sessions = some s) :
    s.expiresAt = s.lastAccessedAt + timeoutOf cfg :=
  reachable_sinv cfg fs st h (sid, s) (alGet_eq_some_mem hs)

/-- C6 witnessed: in the reachable state where c1 created s1 at time 0, the
entry satisfies the deadline equation with the configured 1000 ms timeout. -/
theorem session_deadline_invariant_w :
    sess1.expiresAt = sess1.lastAccessedAt + timeoutOf cfg0 :=
  session_deadline_invariant cfg0 fs0 stA2
    (Reachable.step (Reachable.step Reachable.init (GStep.conn initialState "c1"))
      (GStep.create stA1 0 "c1" "s1" none))
    "s1" sess1 (by decide)
